import Mathlib

/-!
Verification of the model-resolution and tool layer of the `german-tutor`
agent repository (stock analysis agent, research assistant, basic-agent
template).  The Python sources are embedded shallowly: optional `str`
arguments become `Option String` with Python truthiness made explicit,
environment variables become an association list, JSON results become an
inductive `JVal`, and network calls / caught exceptions become explicit
outcome parameters.
-/

/-! ## Python string semantics helpers -/

/-- Python truthiness of an `Optional[str]`: `None` and `""` are falsy. -/
def strTruthy : Option String → Bool
  | none => false
  | some s => !(s == "")

/-- `":" in s` — whether a string contains a colon. -/
def hasColon (s : String) : Bool := s.data.contains ':'

/-- Helper for `s.split(":", 1)`: split a character list at the first colon. -/
def splitCharsAtColon : List Char → List Char × List Char
  | [] => ([], [])
  | c :: cs =>
    if c = ':' then ([], cs)
    else
      let p := splitCharsAtColon cs
      (c :: p.1, p.2)

/-- Python `s.split(":", 1)` for a string containing a colon: the part
before the first colon and the whole remainder after it. -/
def splitColon1 (s : String) : String × String :=
  let p := splitCharsAtColon s.data
  (⟨p.1⟩, ⟨p.2⟩)

/-- Python `s.split(",")`: split at every comma; the empty string yields
one empty field. -/
def splitCommaAux : List Char → List Char → List String
  | [], acc => [⟨acc.reverse⟩]
  | c :: cs, acc =>
    if c = ',' then ⟨acc.reverse⟩ :: splitCommaAux cs []
    else splitCommaAux cs (c :: acc)

/-- Python `s.split(",")`. -/
def pySplitComma (s : String) : List String := splitCommaAux s.data []

/-- Python `s.split()` (no argument): split on whitespace runs, dropping
empty fields. -/
def pyWords (s : String) : List String :=
  ((s.data.splitOnP fun c => c.isWhitespace).map fun cs => (⟨cs⟩ : String)).filter
    fun w => !(w == "")

/-- Python `s.lower()` (ASCII-level model). -/
def pyLower (s : String) : String := ⟨s.data.map Char.toLower⟩

/-- Python `s.upper()` (ASCII-level model). -/
def pyUpper (s : String) : String := ⟨s.data.map Char.toUpper⟩

/-- Python `s.strip()`: remove leading and trailing whitespace. -/
def pyStrip (s : String) : String :=
  ⟨((s.data.dropWhile Char.isWhitespace).reverse.dropWhile Char.isWhitespace).reverse⟩

/-- Python list slice `l[:n]` for a possibly negative `n`. -/
def pySliceTo {α : Type} (n : Int) (l : List α) : List α :=
  if n ≥ 0 then l.take n.toNat
  else l.take (max 0 ((l.length : Int) + n)).toNat

/-- Python list slice `l[i:]` for a possibly negative `i`. -/
def pySliceFrom (i : Int) (l : List String) : List String :=
  if i ≥ 0 then l.drop i.toNat
  else l.drop (max 0 ((l.length : Int) + i)).toNat

/-- Python `" ".join(ws)`. -/
def joinSpace (ws : List String) : String := String.intercalate " " ws

/-- Contiguous-sublist test on character lists. -/
def charsIn (needle : List Char) : List Char → Bool
  | [] => needle.isEmpty
  | hay@(_ :: rest) => needle.isPrefixOf hay || charsIn needle rest

/-- Substring test (`needle in hay` on Python strings). -/
def strIn (needle hay : String) : Bool := charsIn needle.data hay.data

/-! ## JSON values (results of `json.dumps`) -/

/-- A JSON value, as produced by the tools' `json.dumps` calls.  Numbers
are modelled as rationals (covering both Python ints and floats). -/
inductive JVal where
  | null
  | bool (b : Bool)
  | str (s : String)
  | num (q : Rat)
  | arr (xs : List JVal)
  | obj (fields : List (String × JVal))

/-- Top-level field lookup in a JSON object. -/
def JVal.lookupField (e : JVal) (k : String) : Option JVal :=
  match e with
  | .obj fs => fs.lookup k
  | _ => none

/-- Whether a JSON value is an object with a given top-level field. -/
def JVal.hasField (e : JVal) (k : String) : Bool := (e.lookupField k).isSome

/-- Whether a JSON value is an object. -/
def JVal.isObj : JVal → Bool
  | .obj _ => true
  | _ => false

/-- `json.dumps` of an optional number (`None` becomes `null`). -/
def jnum? : Option Rat → JVal
  | none => .null
  | some q => .num q

/-- `json.dumps` of an optional string (`None` becomes `null`). -/
def jstr? : Option String → JVal
  | none => .null
  | some s => .str s

/-! ## Provider registry (`src/stock_analysis_agent/agent.py`, lines 24–115) -/

/-- One entry of the `SUPPORTED_PROVIDERS` dict of
`src/stock_analysis_agent/agent.py`. -/
structure ProviderInfo where
  env_var : Option String
  default_model : String
  package : String
  examples : List String
deriving Repr, DecidableEq

/-- The `SUPPORTED_PROVIDERS` dict of `src/stock_analysis_agent/agent.py`
(lines 24–115), in source order. -/
def SUPPORTED_PROVIDERS : List (String × ProviderInfo) :=
  [ ("openai",
      { env_var := some "OPENAI_API_KEY", default_model := "gpt-4o",
        package := "langchain-openai",
        examples := ["gpt-4o", "gpt-4-turbo", "gpt-3.5-turbo", "o1", "o3-mini"] }),
    ("anthropic",
      { env_var := some "ANTHROPIC_API_KEY",
        default_model := "claude-sonnet-4-20250514",
        package := "langchain-anthropic",
        examples := ["claude-sonnet-4-20250514", "claude-opus-4-20250514",
                     "claude-3-5-sonnet-20241022"] }),
    ("google_vertexai",
      { env_var := some "GOOGLE_APPLICATION_CREDENTIALS",
        default_model := "gemini-2.0-flash",
        package := "langchain-google-vertexai",
        examples := ["gemini-2.0-flash", "gemini-1.5-pro", "gemini-1.5-flash"] }),
    ("google_genai",
      { env_var := some "GOOGLE_API_KEY", default_model := "gemini-2.0-flash",
        package := "langchain-google-genai",
        examples := ["gemini-2.0-flash", "gemini-1.5-pro", "gemini-1.5-flash"] }),
    ("cohere",
      { env_var := some "COHERE_API_KEY", default_model := "command-r-plus",
        package := "langchain-cohere",
        examples := ["command-r-plus", "command-r", "command"] }),
    ("groq",
      { env_var := some "GROQ_API_KEY",
        default_model := "llama-3.3-70b-versatile",
        package := "langchain-groq",
        examples := ["llama-3.3-70b-versatile", "mixtral-8x7b-32768", "gemma2-9b-it"] }),
    ("together",
      { env_var := some "TOGETHER_API_KEY",
        default_model := "meta-llama/Meta-Llama-3.1-70B-Instruct-Turbo",
        package := "langchain-together",
        examples := ["meta-llama/Meta-Llama-3.1-70B-Instruct-Turbo",
                     "mistralai/Mixtral-8x7B-Instruct-v0.1"] }),
    ("mistralai",
      { env_var := some "MISTRAL_API_KEY",
        default_model := "mistral-large-latest",
        package := "langchain-mistralai",
        examples := ["mistral-large-latest", "mistral-medium-latest",
                     "mistral-small-latest"] }),
    ("fireworks",
      { env_var := some "FIREWORKS_API_KEY",
        default_model := "accounts/fireworks/models/llama-v3p1-70b-instruct",
        package := "langchain-fireworks",
        examples := ["accounts/fireworks/models/llama-v3p1-70b-instruct"] }),
    ("ollama",
      { env_var := none, default_model := "llama3.2",
        package := "langchain-ollama",
        examples := ["llama3.2", "mistral", "phi3", "qwen2.5"] }),
    ("bedrock",
      { env_var := some "AWS_ACCESS_KEY_ID",
        default_model := "anthropic.claude-3-5-sonnet-20241022-v2:0",
        package := "langchain-aws",
        examples := ["anthropic.claude-3-5-sonnet-20241022-v2:0",
                     "meta.llama3-1-70b-instruct-v1:0"] }),
    ("azure_openai",
      { env_var := some "AZURE_OPENAI_API_KEY", default_model := "gpt-4o",
        package := "langchain-openai",
        examples := ["gpt-4o", "gpt-4-turbo"] }),
    ("deepseek",
      { env_var := some "DEEPSEEK_API_KEY", default_model := "deepseek-chat",
        package := "langchain-openai",
        examples := ["deepseek-chat", "deepseek-coder"] }),
    ("xai",
      { env_var := some "XAI_API_KEY", default_model := "grok-2-latest",
        package := "langchain-xai",
        examples := ["grok-2-latest", "grok-2-vision-latest"] }),
    ("perplexity",
      { env_var := some "PERPLEXITY_API_KEY", default_model := "sonar-pro",
        package := "langchain-community",
        examples := ["sonar-pro", "sonar"] }) ]

/-- Dict lookup `SUPPORTED_PROVIDERS.get(p)`. -/
def lookupProvider (p : String) : Option ProviderInfo :=
  SUPPORTED_PROVIDERS.lookup p

/-- `SUPPORTED_PROVIDERS.keys()` in dict order (used in the
unsupported-provider error message, `agent.py` line 210). -/
def providerNames : List String := SUPPORTED_PROVIDERS.map Prod.fst

/-! ## Ambient environment namespace (`os.environ` / `os.getenv`) -/

/-- The process environment, as an association list keyed by variable name. -/
abbrev EnvMap := List (String × String)

/-- `os.getenv(k)`. -/
def envGet (k : String) (env : EnvMap) : Option String := env.lookup k

/-- `os.environ[k] = v` (newest binding shadows older ones). -/
def envSet (k v : String) (env : EnvMap) : EnvMap := (k, v) :: env

/-! ## Model specification resolution
(`src/stock_analysis_agent/agent.py`, lines 197–238) -/

/-- Configuration-time failures raised by `create_stock_analysis_agent`:
the unsupported-provider `ValueError` of lines 209–215 and the missing
API key `ValueError` of lines 229–238. -/
inductive ResolveError where
  | unsupportedProvider (provider : String) (available : List String)
  | missingApiKey (provider : String) (envVar : String)
deriving Repr, DecidableEq

/-- Lines 198–202: if the model string is truthy and contains `":"`,
split it at the first colon; the remainder becomes the model and the
prefix becomes the provider unless an explicit provider was truthy
(`provider = provider or provider_from_model`).  Returns the
`(model, provider)` pair after this step. -/
def parse_model_string (model provider : Option String) :
    Option String × Option String :=
  if strTruthy model && hasColon (model.getD "") then
    let p := splitColon1 (model.getD "")
    (some p.2, if strTruthy provider then provider else some p.1)
  else (model, provider)

/-- Lines 198–222 of `create_stock_analysis_agent`: provider/model
parsing, the `"anthropic"` default, registry validation, and the
provider default model. -/
def resolve_provider_model (model provider : Option String) :
    Except ResolveError (String × String) :=
  let pm := parse_model_string model provider
  let provider1 := if strTruthy pm.2 then pm.2.getD "" else "anthropic"
  match lookupProvider provider1 with
  | none => .error (.unsupportedProvider provider1 providerNames)
  | some info =>
    let model1 := if strTruthy pm.1 then pm.1.getD "" else info.default_model
    .ok (provider1, model1)

/-- Lines 224–238 of `create_stock_analysis_agent`: install an explicit
`api_key` into the environment under the provider's `env_var`, then fail
when a required key is absent (or empty — `if not os.getenv(...)`).
Returns the possibly updated environment. -/
def check_credential (provider : String) (info : ProviderInfo)
    (api_key : Option String) (env : EnvMap) : Except ResolveError EnvMap :=
  let env1 :=
    if strTruthy api_key && strTruthy info.env_var then
      envSet (info.env_var.getD "") (api_key.getD "") env
    else env
  if provider ≠ "ollama" && strTruthy info.env_var then
    match envGet (info.env_var.getD "") env1 with
    | none => .error (.missingApiKey provider (info.env_var.getD ""))
    | some s =>
      if s = "" then .error (.missingApiKey provider (info.env_var.getD ""))
      else .ok env1
  else .ok env1

/-- The full resolution pipeline of `create_stock_analysis_agent`
(lines 197–238), up to the point where `init_chat_model` would be
called: resolved provider, resolved model, and the environment after any
credential installation. -/
def create_stock_resolution (model provider api_key : Option String)
    (env : EnvMap) : Except ResolveError (String × String × EnvMap) :=
  match resolve_provider_model model provider with
  | .error e => .error e
  | .ok (p, m) =>
    match lookupProvider p with
    | none => .error (.unsupportedProvider p providerNames)
    | some info =>
      match check_credential p info api_key env with
      | .error e => .error e
      | .ok env1 => .ok (p, m, env1)

/-! ## Basic-agent template resolution
(`src/templates/basic_agent/agent.py`, lines 24–88) -/

/-- One entry of the template's `SUPPORTED_PROVIDERS` dict (only a
default model). -/
structure BasicProviderInfo where
  default_model : String
deriving Repr, DecidableEq

/-- The `SUPPORTED_PROVIDERS` dict of `src/templates/basic_agent/agent.py`
(lines 25–31). -/
def BASIC_SUPPORTED_PROVIDERS : List (String × BasicProviderInfo) :=
  [ ("anthropic", { default_model := "claude-sonnet-4-20250514" }),
    ("openai", { default_model := "gpt-4o" }),
    ("google_genai", { default_model := "gemini-2.0-flash" }),
    ("groq", { default_model := "llama-3.3-70b-versatile" }),
    ("ollama", { default_model := "llama3.2" }) ]

/-- Failure of the template's resolution: the uncaught Python `KeyError`
raised by `SUPPORTED_PROVIDERS[provider]` at line 88 when the provider is
not a dict key. -/
inductive BasicError where
  | keyError (key : String)
deriving Repr, DecidableEq

/-- Lines 79–88 of `create_agent` in `src/templates/basic_agent/agent.py`:
colon splitting, the `"anthropic"` default, and the default-model lookup.
There is no registry validation when a model is given: the lookup — and
hence the only failure — happens only on the default-model path. -/
def basic_resolve (model provider : Option String) :
    Except BasicError (String × String) :=
  let pm := parse_model_string model provider
  let provider1 := if strTruthy pm.2 then pm.2.getD "" else "anthropic"
  if strTruthy pm.1 then .ok (provider1, pm.1.getD "")
  else
    match BASIC_SUPPORTED_PROVIDERS.lookup provider1 with
    | none => .error (.keyError provider1)
    | some info => .ok (provider1, info.default_model)

/-! ## Research assistant resolution
(`src/agents/research_assistant/agent.py`, lines 55–71) -/

/-- Lines 55–63 of `create_research_assistant`: colon splitting and the
`"anthropic"` default.  There is no registry validation and no credential
check of any kind — control proceeds directly to `init_chat_model`
(line 66), so resolution never fails and the environment is never read. -/
def research_resolve (model : String) (provider : Option String)
    (_env : EnvMap) : Except ResolveError (String × String) :=
  let pm := parse_model_string (some model) provider
  let provider1 := if strTruthy pm.2 then pm.2.getD "" else "anthropic"
  .ok (provider1, pm.1.getD "")

/-! ## Tool-set assembly
(`src/agents/research_assistant/agent.py` lines 76–78 and
`src/templates/basic_agent/agent.py` lines 110–112) -/

/-- A tool, identified by its name (the only attribute the assembly code
reads). -/
structure ToolDescriptor where
  name : String
deriving Repr, DecidableEq

/-- `tools = BASE.copy(); if additional_tools: tools.extend(additional_tools)`:
plain list concatenation, with no name check of any kind. -/
def assemble_tools (base : List ToolDescriptor)
    (additional : Option (List ToolDescriptor)) : List ToolDescriptor :=
  base ++ (match additional with | some ts => ts | none => [])

/-- The names of `RESEARCH_TOOLS`
(`src/agents/research_assistant/tools.py`, lines 258–264). -/
def researchToolDescriptors : List ToolDescriptor :=
  [ ⟨"web_search"⟩, ⟨"fetch_article_content"⟩, ⟨"summarize_text"⟩,
    ⟨"extract_key_facts"⟩, ⟨"compare_sources"⟩ ]

/-- How many tools of a list carry a given name. -/
def countName (n : String) (ts : List ToolDescriptor) : Nat :=
  (ts.filter fun t => t.name == n).length

/-! ## Stock analysis tools (`src/stock_analysis_agent/tools.py`) -/

/-- The `meta` dict fields read from a Yahoo Finance chart response
(`tools.py` lines 44–56): `meta.get(...)` may return `None` for any of
them. -/
structure StockMeta where
  regularMarketPrice : Option Rat
  previousClose : Option Rat
  regularMarketDayHigh : Option Rat
  regularMarketDayLow : Option Rat
  regularMarketVolume : Option Rat
  currency : Option String
  exchangeName : Option String
  regularMarketTime : Option Rat

/-- The observable outcome of the `requests.get` call of a quote-style
tool: a 200 response carrying a `meta` dict, a non-200 status code, or a
raised exception with its `str(e)` message. -/
inductive FetchOutcome where
  | ok (meta : StockMeta)
  | httpError (status : Int)
  | exn (msg : String)

/-- `get_stock_quote` (`tools.py` lines 12–69): the JSON envelope the
tool returns for each possible fetch outcome. -/
def get_stock_quote (ticker : String) (out : FetchOutcome) : JVal :=
  match out with
  | .ok meta =>
    .obj [ ("ticker", .str (pyUpper ticker)),
           ("current_price", jnum? meta.regularMarketPrice),
           ("previous_close", jnum? meta.previousClose),
           ("day_high", jnum? meta.regularMarketDayHigh),
           ("day_low", jnum? meta.regularMarketDayLow),
           ("volume", jnum? meta.regularMarketVolume),
           ("currency", jstr? meta.currency),
           ("exchange", jstr? meta.exchangeName),
           ("timestamp", jnum? meta.regularMarketTime) ]
  | .httpError status =>
    .obj [ ("error", .str ("Failed to fetch data for " ++ ticker)),
           ("status_code", .num status) ]
  | .exn msg =>
    .obj [ ("error", .str ("Error fetching stock quote: " ++ msg)),
           ("ticker", .str ticker) ]

/-- One entry of the Yahoo Finance news feed read by `search_stock_news`
(`tools.py` lines 107–113). -/
structure NewsItem where
  title : Option String
  publisher : Option String
  link : Option String
  providerPublishTime : Option Rat

/-- Outcome of the news-search request. -/
inductive NewsOutcome where
  | ok (news : List NewsItem)
  | httpError (status : Int)
  | exn (msg : String)

/-- JSON object built for one news article (`tools.py` lines 108–113). -/
def newsArticleJson (item : NewsItem) : JVal :=
  .obj [ ("title", jstr? item.title),
         ("publisher", jstr? item.publisher),
         ("link", jstr? item.link),
         ("published_at", jnum? item.providerPublishTime) ]

/-- `search_stock_news` (`tools.py` lines 72–130). -/
def search_stock_news (ticker : String) (num_results : Int)
    (out : NewsOutcome) : JVal :=
  match out with
  | .ok news =>
    let articles := (pySliceTo num_results news).map newsArticleJson
    .obj [ ("ticker", .str (pyUpper ticker)),
           ("articles", .arr articles),
           ("count", .num articles.length) ]
  | .httpError status =>
    .obj [ ("error", .str ("Failed to fetch news for " ++ ticker)),
           ("status_code", .num status) ]
  | .exn msg =>
    .obj [ ("error", .str ("Error searching news: " ++ msg)),
           ("ticker", .str ticker) ]

/-- Outcome of the chart request made by `calculate_price_change`: on a
200 response the `close` series may contain `null` entries
(`tools.py` lines 174–178). -/
inductive PriceOutcome where
  | ok (closes : List (Option Rat))
  | httpError (status : Int)
  | exn (msg : String)

/-- Python `round(x, 2)` on our rational model of floats. -/
def round2 (x : Rat) : Rat := (round (x * 100) : Int) / 100

/-- `calculate_price_change` (`tools.py` lines 133–212).  A zero start
price makes the Python float division raise `ZeroDivisionError`, which
the tool's `except` clause converts into the generic error envelope. -/
def calculate_price_change (ticker : String) (period : String)
    (out : PriceOutcome) : JVal :=
  match out with
  | .ok closes =>
    let close_prices := closes.filterMap id
    if close_prices.length ≥ 2 then
      let start_price := close_prices.headI
      let end_price := close_prices.getLastI
      if start_price = 0 then
        .obj [ ("error", .str "Error calculating price change: float division by zero"),
               ("ticker", .str ticker) ]
      else
        let price_change := end_price - start_price
        let percent_change := price_change / start_price * 100
        .obj [ ("ticker", .str (pyUpper ticker)),
               ("period", .str period),
               ("start_price", .num (round2 start_price)),
               ("end_price", .num (round2 end_price)),
               ("price_change", .num (round2 price_change)),
               ("percent_change", .num (round2 percent_change)),
               ("trend", .str (if price_change > 0 then "up"
                               else if price_change < 0 then "down"
                               else "flat")) ]
    else
      .obj [ ("error", .str "Insufficient price data"),
             ("ticker", .str ticker) ]
  | .httpError status =>
    .obj [ ("error", .str ("Failed to fetch price data for " ++ ticker)),
           ("status_code", .num status) ]
  | .exn msg =>
    .obj [ ("error", .str ("Error calculating price change: " ++ msg)),
           ("ticker", .str ticker) ]

/-- JSON comparison entry built for one ticker by `compare_stocks`
(`tools.py` lines 248–257).  `day_change_percent` defaults the price to
`0` and guards on the truthiness of `previousClose` (so `None` and `0`
both yield `null`). -/
def comparisonEntry (ticker : String) (meta : StockMeta) : JVal :=
  .obj [ ("ticker", .str ticker),
         ("current_price", jnum? meta.regularMarketPrice),
         ("previous_close", jnum? meta.previousClose),
         ("day_change_percent",
           match meta.previousClose with
           | some pc =>
             if pc = 0 then .null
             else .num (round2
               ((meta.regularMarketPrice.getD 0 - pc) / pc * 100))
           | none => .null),
         ("volume", jnum? meta.regularMarketVolume) ]

/-- The per-ticker loop of `compare_stocks` (`tools.py` lines 233–257):
a non-200 response is silently skipped, a raised exception aborts the
whole loop. -/
def compareLoop (net : String → FetchOutcome) : List String →
    Except String (List JVal)
  | [] => .ok []
  | t :: ts =>
    match net t with
    | .exn msg => .error msg
    | .httpError _ => compareLoop net ts
    | .ok meta =>
      match compareLoop net ts with
      | .error m => .error m
      | .ok rest => .ok (comparisonEntry t meta :: rest)

/-- `compare_stocks` (`tools.py` lines 215–268); `net` gives the fetch
outcome for each requested ticker. -/
def compare_stocks (tickers : String) (net : String → FetchOutcome) : JVal :=
  let ticker_list := (pySplitComma tickers).map fun t => pyUpper (pyStrip t)
  match compareLoop net ticker_list with
  | .error msg =>
    .obj [ ("error", .str ("Error comparing stocks: " ++ msg)),
           ("tickers", .str tickers) ]
  | .ok comps =>
    .obj [ ("comparison", .arr comps),
           ("count", .num comps.length) ]

/-! ## Research assistant tools (`src/agents/research_assistant/tools.py`) -/

/-- `web_search` (`tools.py` lines 14–58): builds a placeholder result
list of `num_results` entries; nothing in the body can raise, so the
`except` branch is dead and the tool is total. -/
def web_search (query : String) (num_results : Int) : JVal :=
  .obj [ ("query", .str query),
         ("results", .arr ((List.range num_results.toNat).map fun i =>
            .obj [ ("title", .str ("Result " ++ toString (i + 1) ++
                                   " for " ++ query)),
                   ("snippet", .str ("Information about " ++ query ++ "...")),
                   ("url", .str ("https://example.com/result" ++
                                 toString (i + 1))) ])),
         ("count", .num num_results) ]

/-- Outcome of `fetch_article_content`'s request: a non-200 status, a
200 response whose HTML was reduced by BeautifulSoup and the whitespace
normalisation of lines 99–102 to `text` (parsing is an external
collaborator), or a raised exception. -/
inductive FetchPageOutcome where
  | ok (text : String)
  | httpError (status : Int)
  | exn (msg : String)

/-- `fetch_article_content` (`tools.py` lines 61–117). -/
def fetch_article_content (url : String) (out : FetchPageOutcome) : JVal :=
  match out with
  | .httpError status =>
    .obj [ ("success", .bool false),
           ("error", .str ("HTTP " ++ toString status)),
           ("url", .str url) ]
  | .ok text =>
    .obj [ ("success", .bool true),
           ("url", .str url),
           ("content", .str ⟨text.data.take 5000⟩),
           ("length", .num text.data.length),
           ("truncated", .bool (text.data.length > 5000)) ]
  | .exn msg =>
    .obj [ ("success", .bool false),
           ("error", .str msg),
           ("url", .str url) ]

/-- `summarize_text` (`tools.py` lines 120–163): pure word slicing — no
statement of the body can raise, so the tool always reports success.
The head slice is `words[:max_length//2]`; the tail slice
`words[-max_length//2:]` parses as `words[(-max_length)//2:]`, since
unary minus binds tighter than floor division in Python. -/
def summarize_text (text : String) (max_length : Int) : JVal :=
  let words := pyWords text
  let summary :=
    if (words.length : Int) ≤ max_length then text
    else
      let start := joinSpace (pySliceTo (Int.fdiv max_length 2) words)
      let stop := joinSpace (pySliceFrom (Int.fdiv (-max_length) 2) words)
      start ++ "...\n\n" ++ stop
  .obj [ ("success", .bool true),
         ("original_length", .num words.length),
         ("summary_length", .num (pyWords summary).length),
         ("summary", .str summary) ]

/-- Python `text.split('. ')` used by `extract_key_facts` (line 187). -/
def sentSplitAux : List Char → List Char → List String
  | '.' :: ' ' :: rest, acc => (⟨acc.reverse⟩ : String) :: sentSplitAux rest []
  | c :: rest, acc => sentSplitAux rest (c :: acc)
  | [], acc => [⟨acc.reverse⟩]

/-- Python `text.split('. ')`. -/
def splitSentences (text : String) : List String := sentSplitAux text.data []

/-- The keyword list of `extract_key_facts` (`tools.py` lines 188–189). -/
def factKeywords : List String :=
  [ "important", "key", "significant", "found", "discovered",
    "showed", "demonstrated", "concluded", "evidence", "result" ]

/-- The accumulation loop of `extract_key_facts` (lines 191–196): a
matching sentence is appended stripped, and the loop breaks as soon as
the fact count reaches `num_facts` (checked after each sentence). -/
def extractLoop (num_facts : Int) : List String → List String → List String
  | [], facts => facts
  | s :: rest, facts =>
    let facts1 :=
      if factKeywords.any (fun k => strIn k (pyLower s)) then
        facts ++ [pyStrip s]
      else facts
    if (facts1.length : Int) ≥ num_facts then facts1
    else extractLoop num_facts rest facts1

/-- `extract_key_facts` (`tools.py` lines 166–208): pure string
processing, so the `except` branch is dead; note `count` reports the
full loop result while `facts` is sliced to `num_facts`. -/
def extract_key_facts (text : String) (num_facts : Int) : JVal :=
  let facts := extractLoop num_facts (splitSentences text) []
  .obj [ ("success", .bool true),
         ("facts", .arr ((pySliceTo num_facts facts).map JVal.str)),
         ("count", .num facts.length) ]

/-- `compare_sources` (`tools.py` lines 211–254): word-set comparison.
When both word sets are empty, `len(common) / max(len(words1),
len(words2))` raises `ZeroDivisionError`, which the `except` clause
reports as `str(e)` — the envelope then carries neither source text.
Python's arbitrary set iteration order for `common_sample` is modelled
as last-occurrence order. -/
def compare_sources (source1_text source2_text : String) : JVal :=
  let words1 := (pyWords (pyLower source1_text)).dedup
  let words2 := (pyWords (pyLower source2_text)).dedup
  let common := words1.filter fun w => words2.contains w
  let unique1 := words1.filter fun w => !(words2.contains w)
  let unique2 := words2.filter fun w => !(words1.contains w)
  if max words1.length words2.length = 0 then
    .obj [ ("success", .bool false),
           ("error", .str "division by zero") ]
  else
    .obj [ ("success", .bool true),
           ("common_terms_count", .num common.length),
           ("unique_to_source1", .num unique1.length),
           ("unique_to_source2", .num unique2.length),
           ("similarity_score",
             .num ((common.length : Rat) /
                   (max words1.length words2.length : Nat))),
           ("common_sample", .arr ((common.take 10).map JVal.str)) ]

/-! ## Result-envelope contract predicates -/

/-- The envelope shape the stock tools actually produce: a JSON object
whose `error` field, when present, is a nonempty string, and which never
carries a `success` flag alongside an error. -/
def stockEnvOk (e : JVal) : Bool :=
  e.isObj &&
  (match e.lookupField "error" with
   | none => true
   | some (.str m) => !(m == "") && !(e.hasField "success")
   | some _ => false)

/-- The envelope shape the research tools actually produce: a JSON
object whose `error` field, when present, is a string accompanied by
`success = false`. -/
def researchEnvOk (e : JVal) : Bool :=
  e.isObj &&
  (match e.lookupField "error" with
   | none => true
   | some (.str _) =>
     (match e.lookupField "success" with
      | some (.bool b) => !b
      | _ => false)
   | some _ => false)

/-! ## `get_supported_providers` and the registry as heap state
(`src/stock_analysis_agent/agent.py`, lines 304–316) -/

/-- A heap of Python dict objects: addresses mapped to top-level dict
contents.  The module-global `SUPPORTED_PROVIDERS` lives at address 0. -/
abbrev DictHeap := List (Nat × List (String × ProviderInfo))

/-- The address of the module-global `SUPPORTED_PROVIDERS` dict. -/
def registryAddr : Nat := 0

/-- Dereference a dict address. -/
def heapGet (h : DictHeap) (a : Nat) : Option (List (String × ProviderInfo)) :=
  h.lookup a

/-- Overwrite the dict at an address. -/
def heapSet (h : DictHeap) (a : Nat) (d : List (String × ProviderInfo)) :
    DictHeap := (a, d) :: h

/-- An address not used by any allocated dict. -/
def freshAddr (h : DictHeap) : Nat := (h.map Prod.fst).foldr max 0 + 1

/-- `get_supported_providers` (lines 304–316): returns
`SUPPORTED_PROVIDERS.copy()` — a newly allocated dict holding the same
top-level entries as the registry. -/
def get_supported_providers (h : DictHeap) : DictHeap × Nat :=
  let content := (heapGet h registryAddr).getD []
  let b := freshAddr h
  (heapSet h b content, b)

/-- Python `d[k] = v` on the dict at address `a`: replace in place when
the key exists, append otherwise. -/
def dictInsertAt (h : DictHeap) (a : Nat) (k : String) (v : ProviderInfo) :
    DictHeap :=
  let d := (heapGet h a).getD []
  let d1 :=
    if (d.lookup k).isSome then
      d.map fun p => if p.1 == k then (k, v) else p
    else d ++ [(k, v)]
  heapSet h a d1

/-- Python `del d[k]` on the dict at address `a` (no-op when absent). -/
def dictDeleteAt (h : DictHeap) (a : Nat) (k : String) : DictHeap :=
  let d := (heapGet h a).getD []
  heapSet h a (d.filter fun p => !(p.1 == k))

/-! ## Shared lemmas -/

/-- Splitting a character list at the first colon, when the prefix is
colon-free, returns exactly that prefix and the full remainder. -/
theorem splitCharsAtColon_append (a b : List Char) (h : ':' ∉ a) :
    splitCharsAtColon (a ++ ':' :: b) = (a, b) := by
  induction a with
  | nil => simp [splitCharsAtColon]
  | cons c cs ih =>
    rw [List.cons_append, splitCharsAtColon]
    have hc : ¬ c = ':' := fun hh => h (hh ▸ List.mem_cons_self _ _)
    rw [if_neg hc]
    have := ih fun hm => h (List.mem_cons_of_mem _ hm)
    simp [this]

/-- From `hasColon a = false` to list non-membership. -/
theorem not_colon_of_hasColon_false (a : String) (h : hasColon a = false) :
    ':' ∉ a.data := by
  simpa [hasColon] using h

/-- Character data of `a ++ ":" ++ b`. -/
theorem data_append_colon (a b : String) :
    (a ++ ":" ++ b).data = a.data ++ ':' :: b.data := by
  simp [String.data_append]

/-- A provider-prefixed string is never empty. -/
theorem append_colon_ne_empty (a b : String) : a ++ ":" ++ b ≠ "" := by
  intro he
  have := congrArg String.data he
  rw [data_append_colon] at this
  simp at this

/-- A provider-prefixed string always contains a colon. -/
theorem hasColon_append (a b : String) : hasColon (a ++ ":" ++ b) = true := by
  simp [hasColon, data_append_colon]

/-- `split(":", 1)` on `a ++ ":" ++ b` with colon-free `a` yields `(a, b)`. -/
theorem splitColon1_append (a b : String) (h : hasColon a = false) :
    splitColon1 (a ++ ":" ++ b) = (a, b) := by
  simp [splitColon1, data_append_colon,
        splitCharsAtColon_append a.data b.data (not_colon_of_hasColon_false a h)]

/-- Parsing a provider-prefixed string: the remainder becomes the model
and the prefix becomes the provider unless an explicit provider is
truthy. -/
theorem parse_of_split (a b : String) (h : hasColon a = false) (pr : Option String) :
    parse_model_string (some (a ++ ":" ++ b)) pr =
      (some b, if strTruthy pr then pr else some a) := by
  have h1 : strTruthy (some (a ++ ":" ++ b)) = true := by
    simp [strTruthy, append_colon_ne_empty a b]
  simp [parse_model_string, h1, hasColon_append, splitColon1_append a b h]

/-- Parsing a colon-free model string leaves both arguments unchanged. -/
theorem parse_of_no_colon (m : String) (h : hasColon m = false) (pr : Option String) :
    parse_model_string (some m) pr = (some m, pr) := by
  simp [parse_model_string, h]

/-- A truthy explicit provider survives the parse step unchanged. -/
theorem parse_snd_of_truthy (mo : Option String) (p : String) (hp : p ≠ "") :
    (parse_model_string mo (some p)).2 = some p := by
  have ht : strTruthy (some p) = true := by simp [strTruthy, hp]
  unfold parse_model_string
  split
  · simp [ht]
  · rfl

/-- Appending to a nonempty string yields a nonempty string. -/
theorem append_ne_empty_left (s t : String) (h : s.data ≠ []) : s ++ t ≠ "" := by
  intro he
  have hd := congrArg String.data he
  rw [String.data_append] at hd
  simp at hd
  exact h hd.1

/-- Every `get_stock_quote` envelope satisfies the stock-tool contract. -/
theorem get_stock_quote_envelope : ∀ (t : String) (o : FetchOutcome),
    stockEnvOk (get_stock_quote t o) = true := by
  intro t o
  cases o with
  | ok meta =>
    simp [get_stock_quote, stockEnvOk, JVal.lookupField, JVal.isObj, List.lookup]
  | httpError s =>
    simp [get_stock_quote, stockEnvOk, JVal.lookupField, JVal.hasField,
          JVal.isObj, List.lookup]
    exact append_ne_empty_left "Failed to fetch data for " t (by decide)
  | exn m =>
    simp [get_stock_quote, stockEnvOk, JVal.lookupField, JVal.hasField,
          JVal.isObj, List.lookup]
    exact append_ne_empty_left "Error fetching stock quote: " m (by decide)

/-- Every `search_stock_news` envelope satisfies the stock-tool contract. -/
theorem search_stock_news_envelope : ∀ (t : String) (n : Int) (o : NewsOutcome),
    stockEnvOk (search_stock_news t n o) = true := by
  intro t n o
  cases o with
  | ok news =>
    simp [search_stock_news, stockEnvOk, JVal.lookupField, JVal.isObj, List.lookup]
  | httpError s =>
    simp [search_stock_news, stockEnvOk, JVal.lookupField, JVal.hasField,
          JVal.isObj, List.lookup]
    exact append_ne_empty_left "Failed to fetch news for " t (by decide)
  | exn m =>
    simp [search_stock_news, stockEnvOk, JVal.lookupField, JVal.hasField,
          JVal.isObj, List.lookup]
    exact append_ne_empty_left "Error searching news: " m (by decide)

/-- Every `calculate_price_change` envelope satisfies the stock-tool
contract. -/
theorem calculate_price_change_envelope : ∀ (t p : String) (o : PriceOutcome),
    stockEnvOk (calculate_price_change t p o) = true := by
  intro t p o
  cases o with
  | ok closes =>
    simp only [calculate_price_change]
    split
    · split
      · simp [stockEnvOk, JVal.lookupField, JVal.hasField, JVal.isObj, List.lookup]
      · simp [stockEnvOk, JVal.lookupField, JVal.hasField, JVal.isObj, List.lookup]
    · simp [stockEnvOk, JVal.lookupField, JVal.hasField, JVal.isObj, List.lookup]
  | httpError s =>
    simp [calculate_price_change, stockEnvOk, JVal.lookupField, JVal.hasField,
          JVal.isObj, List.lookup]
    exact append_ne_empty_left "Failed to fetch price data for " t (by decide)
  | exn m =>
    simp [calculate_price_change, stockEnvOk, JVal.lookupField, JVal.hasField,
          JVal.isObj, List.lookup]
    exact append_ne_empty_left "Error calculating price change: " m (by decide)

/-- Every `compare_stocks` envelope satisfies the stock-tool contract. -/
theorem compare_stocks_envelope : ∀ (ts : String) (net : String → FetchOutcome),
    stockEnvOk (compare_stocks ts net) = true := by
  intro ts net
  simp only [compare_stocks]
  cases hloop : compareLoop net ((pySplitComma ts).map fun t => pyUpper (pyStrip t)) with
  | error m =>
    simp [stockEnvOk, JVal.lookupField, JVal.hasField, JVal.isObj, List.lookup]
    exact append_ne_empty_left "Error comparing stocks: " m (by decide)
  | ok comps =>
    simp [stockEnvOk, JVal.lookupField, JVal.hasField, JVal.isObj, List.lookup]

/-- Every `web_search` envelope satisfies the research-tool contract. -/
theorem web_search_envelope : ∀ (q : String) (n : Int),
    researchEnvOk (web_search q n) = true := by
  intro q n
  simp [web_search, researchEnvOk, JVal.lookupField, JVal.isObj, List.lookup]

/-- Every `fetch_article_content` envelope satisfies the research-tool
contract. -/
theorem fetch_article_content_envelope : ∀ (u : String) (o : FetchPageOutcome),
    researchEnvOk (fetch_article_content u o) = true := by
  intro u o
  cases o <;>
    simp [fetch_article_content, researchEnvOk, JVal.lookupField, JVal.isObj,
          List.lookup]

/-- Every `summarize_text` envelope satisfies the research-tool contract. -/
theorem summarize_text_envelope : ∀ (t : String) (m : Int),
    researchEnvOk (summarize_text t m) = true := by
  intro t m
  simp [summarize_text, researchEnvOk, JVal.lookupField, JVal.isObj, List.lookup]

/-- Every `extract_key_facts` envelope satisfies the research-tool
contract. -/
theorem extract_key_facts_envelope : ∀ (t : String) (n : Int),
    researchEnvOk (extract_key_facts t n) = true := by
  intro t n
  simp [extract_key_facts, researchEnvOk, JVal.lookupField, JVal.isObj, List.lookup]

/-- Every `compare_sources` envelope satisfies the research-tool contract. -/
theorem compare_sources_envelope : ∀ (a b : String),
    researchEnvOk (compare_sources a b) = true := by
  intro a b
  simp only [compare_sources]
  split <;>
    simp [researchEnvOk, JVal.lookupField, JVal.isObj, List.lookup]

/-- A truthy explicit provider is the resolved provider whenever stock
resolution succeeds. -/
theorem resolve_keeps_explicit_provider :
    ∀ (mo : Option String) (p : String) (r : String × String),
    p ≠ "" → resolve_provider_model mo (some p) = .ok r → r.1 = p := by
  intro mo p r hp hok
  have ht : strTruthy (some p) = true := by simp [strTruthy, hp]
  simp only [resolve_provider_model, parse_snd_of_truthy mo p hp, ht,
    if_true, Option.getD_some] at hok
  cases hl : lookupProvider p with
  | none => rw [hl] at hok; cases hok
  | some info =>
    rw [hl] at hok
    simp only [Except.ok.injEq] at hok
    subst hok
    rfl

/-- A truthy colon-free model argument is the resolved model whenever
stock resolution succeeds. -/
theorem resolve_keeps_plain_model :
    ∀ (m : String) (pr : Option String) (r : String × String),
    m ≠ "" → hasColon m = false →
    resolve_provider_model (some m) pr = .ok r → r.2 = m := by
  intro m pr r hm hc hok
  have ht : strTruthy (some m) = true := by simp [strTruthy, hm]
  simp only [resolve_provider_model, parse_of_no_colon m hc pr, ht,
    if_true, Option.getD_some] at hok
  cases hl : lookupProvider (if strTruthy pr = true then pr.getD "" else "anthropic") with
  | none => rw [hl] at hok; cases hok
  | some info =>
    rw [hl] at hok
    simp only [Except.ok.injEq] at hok
    subst hok
    rfl

/-- Unknown providers make the stock agent's resolution fail with the
enumerating error. -/
theorem stock_resolution_unknown_provider :
    ∀ (mo k : Option String) (env : EnvMap) (p : String),
    p ≠ "" → lookupProvider p = none →
    create_stock_resolution mo (some p) k env =
      .error (.unsupportedProvider p providerNames) := by
  intro mo k env p hp hl
  have ht : strTruthy (some p) = true := by simp [strTruthy, hp]
  have hres : resolve_provider_model mo (some p) =
      .error (.unsupportedProvider p providerNames) := by
    simp only [resolve_provider_model, parse_snd_of_truthy mo p hp, ht,
      if_true, Option.getD_some, hl]
  simp only [create_stock_resolution, hres]

/-- With no model, the basic template fails on an unknown provider with a
bare `KeyError` (no enumeration of valid providers). -/
theorem basic_unknown_provider_no_model :
    ∀ p : String, p ≠ "" → BASIC_SUPPORTED_PROVIDERS.lookup p = none →
    basic_resolve none (some p) = .error (.keyError p) := by
  intro p hp hl
  have ht : strTruthy (some p) = true := by simp [strTruthy, hp]
  simp [basic_resolve, parse_model_string, strTruthy, ht, hl, hp]

/-- With a colon-free model given, the basic template accepts any
provider string unvalidated. -/
theorem basic_unknown_provider_with_model :
    ∀ m p : String, m ≠ "" → hasColon m = false → p ≠ "" →
    basic_resolve (some m) (some p) = .ok (p, m) := by
  intro m p hm hc hp
  have htm : strTruthy (some m) = true := by simp [strTruthy, hm]
  have htp : strTruthy (some p) = true := by simp [strTruthy, hp]
  simp [basic_resolve, parse_of_no_colon m hc (some p), htm, htp]

/-- The end-to-end missing-credential scenario on the stock agent. -/
theorem stock_resolution_missing_openai_key :
    ∀ env : EnvMap, envGet "OPENAI_API_KEY" env = none →
    create_stock_resolution (some "openai:gpt-4o") none none env =
      .error (.missingApiKey "openai" "OPENAI_API_KEY") := by
  intro env henv
  have hres : resolve_provider_model (some "openai:gpt-4o") none =
      .ok ("openai", "gpt-4o") := by rfl
  simp only [create_stock_resolution, hres]
  have hli : lookupProvider "openai" = some
      { env_var := some "OPENAI_API_KEY", default_model := "gpt-4o",
        package := "langchain-openai",
        examples := ["gpt-4o", "gpt-4-turbo", "gpt-3.5-turbo", "o1", "o3-mini"] } := by rfl
  rw [hli]
  simp [check_credential, strTruthy, henv]

/-- The stock agent's credential check fails for any provider requiring a
key that the environment lacks, naming the exact key. -/
theorem check_credential_missing :
    ∀ (p : String) (info : ProviderInfo) (v : String) (env : EnvMap),
    p ≠ "ollama" → info.env_var = some v → v ≠ "" → envGet v env = none →
    check_credential p info none env = .error (.missingApiKey p v) := by
  intro p info v env hpo hev hv henv
  simp [check_credential, strTruthy, hev, hv, hpo, henv]

/-- The research assistant's resolution can never fail: it performs no
validation and no credential check. -/
theorem research_resolve_never_fails :
    ∀ (m : String) (pr : Option String) (env : EnvMap),
    (research_resolve m pr env).isOk = true := by
  intro m pr env
  simp [research_resolve, Except.isOk, Except.toBool]

/-- Python `split(",")` never returns an empty list: even `""` yields
one empty field. -/
theorem splitCommaAux_ne_nil : ∀ (l acc : List Char), splitCommaAux l acc ≠ [] := by
  intro l
  induction l with
  | nil => intro acc; simp [splitCommaAux]
  | cons c cs ih =>
    intro acc
    rw [splitCommaAux]
    split
    · simp
    · exact ih _

/-- When every fetch raises, `compare_stocks` takes its `except` branch
and the envelope carries an `error` field. -/
theorem compare_stocks_exn_has_error : ∀ (ts m : String),
    (compare_stocks ts (fun _ => FetchOutcome.exn m)).hasField "error" = true := by
  intro ts m
  cases hsp : pySplitComma ts with
  | nil => exact absurd hsp (splitCommaAux_ne_nil ts.data [])
  | cons a as =>
    simp only [compare_stocks, hsp, List.map_cons]
    rfl

/-! ## Claim C1 -/

/-- Claim C1, counterexample: the HTTP-failure envelope of
`get_stock_quote` carries a populated error message but no `success`
field at all (and the triggering ticker only inside the message text),
so a failure path does not return `success=false` as claimed. -/
theorem C1_counterexample :
    get_stock_quote "AAPL" (.httpError 404) =
      .obj [ ("error", .str "Failed to fetch data for AAPL"),
             ("status_code", .num 404) ] ∧
    (get_stock_quote "AAPL" (.httpError 404)).hasField "success" = false :=
  ⟨rfl, rfl⟩

/-- Claim C1 as amended: every tool of `STOCK_TOOLS` and `RESEARCH_TOOLS`
returns, on every input and every fetch outcome, a JSON object and never
raises; any failure is reported through an `error` field.  Stock-tool
failure envelopes carry a nonempty message but no `success` flag;
research-tool failure envelopes carry `success=false` (but, for
`summarize_text`, `extract_key_facts` and `compare_sources`, not the
triggering input).  The final group of conjuncts shows every reachable
failure branch — HTTP errors, caught exceptions, insufficient data, the
zero-price division, and the empty-source division — does produce an
`error` field. -/
theorem C1_tool_envelope_contract :
    (∀ (t : String) (o : FetchOutcome),
      stockEnvOk (get_stock_quote t o) = true) ∧
    (∀ (t : String) (n : Int) (o : NewsOutcome),
      stockEnvOk (search_stock_news t n o) = true) ∧
    (∀ (t p : String) (o : PriceOutcome),
      stockEnvOk (calculate_price_change t p o) = true) ∧
    (∀ (ts : String) (net : String → FetchOutcome),
      stockEnvOk (compare_stocks ts net) = true) ∧
    (∀ (q : String) (n : Int), researchEnvOk (web_search q n) = true) ∧
    (∀ (u : String) (o : FetchPageOutcome),
      researchEnvOk (fetch_article_content u o) = true) ∧
    (∀ (t : String) (m : Int), researchEnvOk (summarize_text t m) = true) ∧
    (∀ (t : String) (n : Int), researchEnvOk (extract_key_facts t n) = true) ∧
    (∀ (a b : String), researchEnvOk (compare_sources a b) = true) ∧
    (∀ (t : String) (s : Int),
      (get_stock_quote t (.httpError s)).hasField "error" = true) ∧
    (∀ (t m : String),
      (get_stock_quote t (.exn m)).hasField "error" = true) ∧
    (∀ (t : String) (n s : Int),
      (search_stock_news t n (.httpError s)).hasField "error" = true) ∧
    (∀ (t : String) (n : Int) (m : String),
      (search_stock_news t n (.exn m)).hasField "error" = true) ∧
    (∀ (t p : String) (s : Int),
      (calculate_price_change t p (.httpError s)).hasField "error" = true) ∧
    (∀ (t p m : String),
      (calculate_price_change t p (.exn m)).hasField "error" = true) ∧
    (calculate_price_change "AAPL" "1mo" (.ok [])).hasField "error" = true ∧
    (calculate_price_change "AAPL" "1mo"
      (.ok [some 0, some 1])).hasField "error" = true ∧
    (∀ (ts m : String),
      (compare_stocks ts (fun _ => .exn m)).hasField "error" = true) ∧
    (∀ (u : String) (s : Int),
      (fetch_article_content u (.httpError s)).hasField "error" = true) ∧
    (∀ (u m : String),
      (fetch_article_content u (.exn m)).hasField "error" = true) ∧
    (compare_sources "" "").hasField "error" = true :=
  ⟨get_stock_quote_envelope, search_stock_news_envelope,
   calculate_price_change_envelope, compare_stocks_envelope,
   web_search_envelope, fetch_article_content_envelope,
   summarize_text_envelope, extract_key_facts_envelope,
   compare_sources_envelope,
   fun _ _ => rfl, fun _ _ => rfl, fun _ _ _ => rfl, fun _ _ _ => rfl,
   fun _ _ _ => rfl, fun _ _ _ => rfl, rfl, rfl,
   compare_stocks_exn_has_error,
   fun _ _ => rfl, fun _ _ => rfl, rfl⟩

/-! ## Claim C2 -/

/-- Claim C2, counterexample: adding an additional tool named
`web_search` — a name already present in `RESEARCH_TOOLS` — neither
fails nor truncates: assembly returns all six descriptors, with the name
`web_search` occurring twice. -/
theorem C2_counterexample :
    assemble_tools researchToolDescriptors (some [⟨"web_search"⟩]) =
      researchToolDescriptors ++ [⟨"web_search"⟩] ∧
    countName "web_search"
      (assemble_tools researchToolDescriptors (some [⟨"web_search"⟩])) = 2 ∧
    (assemble_tools researchToolDescriptors (some [⟨"web_search"⟩])).length = 6 :=
  ⟨rfl, rfl, rfl⟩

/-- Claim C2 as amended: tool-set assembly never fails and never
deduplicates or truncates — it concatenates the base and additional
collections verbatim, so each name occurs exactly as often as in the two
inputs combined, and a shared name yields two same-named entries. -/
theorem C2_assembly_concatenates :
    (∀ (base add : List ToolDescriptor) (n : String),
      countName n (assemble_tools base (some add)) =
        countName n base + countName n add) ∧
    (∀ base : List ToolDescriptor, assemble_tools base none = base) := by
  constructor
  · intro base add n
    simp [assemble_tools, countName, List.filter_append]
  · intro base
    simp [assemble_tools]

/-! ## Claim C3 -/

/-- Claim C3 (confirmed): a raw model string containing `":"` is split at
the first occurrence only — for any colon-free prefix `a` and arbitrary
remainder `b`, parsing `a ++ ":" ++ b` with no explicit provider makes
`a` the provider candidate and the whole remainder `b` (colons included)
the model candidate. -/
theorem C3_split_on_first_colon : ∀ a b : String, hasColon a = false →
    parse_model_string (some (a ++ ":" ++ b)) none = (some b, some a) := by
  intro a b h
  rw [parse_of_split a b h none]
  simp [strTruthy]

/-- Claim C3, witness: `"providerA:modelA:v2"` parses to provider
candidate `providerA` and model candidate `modelA:v2`. -/
theorem C3_witness :
    parse_model_string (some ("providerA" ++ ":" ++ "modelA:v2")) none =
      (some "modelA:v2", some "providerA") :=
  C3_split_on_first_colon "providerA" "modelA:v2" (by rfl)

/-! ## Claim C4 -/

/-- Claim C4, counterexample: with explicit arguments
`model="openai:gpt-4o"`, `provider="groq"`, the resolved model is
`"gpt-4o"`, not the explicitly given model string `"openai:gpt-4o"` —
the model argument is itself the raw string and gets split, so the
resolved model does not always equal the explicitly given model. -/
theorem C4_counterexample :
    resolve_provider_model (some "openai:gpt-4o") (some "groq") =
      .ok ("groq", "gpt-4o") ∧
    ("gpt-4o" : String) ≠ "openai:gpt-4o" :=
  ⟨rfl, by decide⟩

/-- Claim C4 as amended: a truthy explicit provider always overrides any
provider embedded in the model string; the model argument doubles as the
raw string, so the resolved model equals the given model exactly when
that argument is truthy and colon-free. -/
theorem C4_explicit_arguments_override :
    (∀ (mo : Option String) (p : String) (r : String × String),
      p ≠ "" → resolve_provider_model mo (some p) = .ok r → r.1 = p) ∧
    (∀ (m : String) (pr : Option String) (r : String × String),
      m ≠ "" → hasColon m = false →
      resolve_provider_model (some m) pr = .ok r → r.2 = m) :=
  ⟨resolve_keeps_explicit_provider, resolve_keeps_plain_model⟩

/-- Claim C4, witness: both parts applied at concrete inputs
(`model="x:y"` with `provider="openai"`, and `model="gpt-4o"` with no
provider). -/
theorem C4_witness :
    (("openai", "y") : String × String).1 = "openai" ∧
    (("anthropic", "gpt-4o") : String × String).2 = "gpt-4o" :=
  ⟨C4_explicit_arguments_override.1 (some "x:y") "openai" ("openai", "y")
      (by decide) (by rfl),
   C4_explicit_arguments_override.2 "gpt-4o" none ("anthropic", "gpt-4o")
      (by decide) (by rfl) (by rfl)⟩

/-! ## Claim C5 -/

/-- Claim C5, counterexample: `create_agent` (basic template) with
`model="gpt-4o"` and the unknown provider `"nosuchprovider"` does not
fail at all — resolution succeeds and the unknown provider is passed on
to model initialization, with no typed error enumerating known
providers. -/
theorem C5_counterexample :
    basic_resolve (some "gpt-4o") (some "nosuchprovider") =
      .ok ("nosuchprovider", "gpt-4o") :=
  rfl

/-- Claim C5 as amended: only `create_stock_analysis_agent` validates the
provider, failing with an error enumerating all registry names; the
basic template looks its registry up only on the default-model path
(failing there with a bare `KeyError` that enumerates nothing) and
otherwise proceeds with the unknown provider unvalidated. -/
theorem C5_unknown_provider :
    (∀ (mo k : Option String) (env : EnvMap) (p : String),
      p ≠ "" → lookupProvider p = none →
      create_stock_resolution mo (some p) k env =
        .error (.unsupportedProvider p providerNames)) ∧
    (∀ p : String, p ≠ "" → BASIC_SUPPORTED_PROVIDERS.lookup p = none →
      basic_resolve none (some p) = .error (.keyError p)) ∧
    (∀ m p : String, m ≠ "" → hasColon m = false → p ≠ "" →
      basic_resolve (some m) (some p) = .ok (p, m)) :=
  ⟨stock_resolution_unknown_provider, basic_unknown_provider_no_model,
   basic_unknown_provider_with_model⟩

/-- Claim C5, witness: all three parts applied to the unknown provider
`"zzz"` on an empty environment. -/
theorem C5_witness :
    create_stock_resolution none (some "zzz") none [] =
      .error (.unsupportedProvider "zzz" providerNames) ∧
    basic_resolve none (some "zzz") = .error (.keyError "zzz") ∧
    basic_resolve (some "gpt-4o") (some "zzz") = .ok ("zzz", "gpt-4o") :=
  ⟨C5_unknown_provider.1 none none [] "zzz" (by decide) (by rfl),
   C5_unknown_provider.2.1 "zzz" (by decide) (by rfl),
   C5_unknown_provider.2.2 "gpt-4o" "zzz" (by decide) (by rfl) (by decide)⟩

/-! ## Claim C6 -/

/-- Claim C6, counterexample: `create_research_assistant` with
`model="openai:gpt-4o"`, no provider and an empty environment performs
no credential check at all — resolution succeeds and control proceeds
directly to opening the model connection, with no MissingCredential
error naming `OPENAI_API_KEY`. -/
theorem C6_counterexample :
    research_resolve "openai:gpt-4o" none [] = .ok ("openai", "gpt-4o") :=
  rfl

/-- Claim C6 as amended: `create_stock_analysis_agent` fails before any
model connection with an error naming the exact environment key — both
in the `openai:gpt-4o` scenario and for any provider whose entry
declares a credential key absent from the environment — while
`create_research_assistant` performs no credential check and never fails
during resolution. -/
theorem C6_missing_credential :
    (∀ env : EnvMap, envGet "OPENAI_API_KEY" env = none →
      create_stock_resolution (some "openai:gpt-4o") none none env =
        .error (.missingApiKey "openai" "OPENAI_API_KEY")) ∧
    (∀ (p : String) (info : ProviderInfo) (v : String) (env : EnvMap),
      p ≠ "ollama" → info.env_var = some v → v ≠ "" → envGet v env = none →
      check_credential p info none env = .error (.missingApiKey p v)) ∧
    (∀ (m : String) (pr : Option String) (env : EnvMap),
      (research_resolve m pr env).isOk = true) :=
  ⟨stock_resolution_missing_openai_key, check_credential_missing,
   research_resolve_never_fails⟩

/-- Claim C6, witness: the scenario on an empty environment, the generic
check for the registry's `openai` entry, and the research assistant's
unconditional success. -/
theorem C6_witness :
    create_stock_resolution (some "openai:gpt-4o") none none [] =
      .error (.missingApiKey "openai" "OPENAI_API_KEY") ∧
    check_credential "openai"
      { env_var := some "OPENAI_API_KEY", default_model := "gpt-4o",
        package := "langchain-openai",
        examples := ["gpt-4o", "gpt-4-turbo", "gpt-3.5-turbo", "o1", "o3-mini"] }
      none [] = .error (.missingApiKey "openai" "OPENAI_API_KEY") ∧
    (research_resolve "openai:gpt-4o" none []).isOk = true :=
  ⟨C6_missing_credential.1 [] (by rfl),
   C6_missing_credential.2.1 "openai" _ "OPENAI_API_KEY" []
      (by decide) (by rfl) (by decide) (by rfl),
   C6_missing_credential.2.2 "openai:gpt-4o" none []⟩

/-! ## Claim C7 -/

/-- Claim C7 (confirmed): with both model and provider absent, both the
stock agent and the basic template resolve to the fixed default provider
`anthropic` and its registry default model `claude-sonnet-4-20250514`. -/
theorem C7_default_resolution :
    resolve_provider_model none none =
      .ok ("anthropic", "claude-sonnet-4-20250514") ∧
    basic_resolve none none = .ok ("anthropic", "claude-sonnet-4-20250514") :=
  ⟨rfl, rfl⟩

/-! ## Claim C8 -/

/-- Claim C8, counterexample: for `X="openai"`, `Y="gpt:4o"` the round
trip fails — the explicit call splits the model argument itself (giving
model `"4o"`), while the single string `"openai:gpt:4o"` keeps
`"gpt:4o"` as the model, so the two resolutions differ. -/
theorem C8_counterexample :
    resolve_provider_model (some "gpt:4o") (some "openai") =
      .ok ("openai", "4o") ∧
    resolve_provider_model (some ("openai" ++ ":" ++ "gpt:4o")) none =
      .ok ("openai", "gpt:4o") ∧
    resolve_provider_model (some "gpt:4o") (some "openai") ≠
      resolve_provider_model (some ("openai" ++ ":" ++ "gpt:4o")) none := by
  refine ⟨rfl, rfl, ?_⟩
  intro h
  rw [show resolve_provider_model (some "gpt:4o") (some "openai") =
        .ok ("openai", "4o") from rfl,
      show resolve_provider_model (some ("openai" ++ ":" ++ "gpt:4o")) none =
        .ok ("openai", "gpt:4o") from rfl] at h
  simp at h

/-- Claim C8 as amended: the round trip holds whenever both the provider
name `X` and the model name `Y` are colon-free: resolving
`(provider=X, model=Y)` explicitly equals resolving the single string
`X ++ ":" ++ Y` with no explicit arguments. -/
theorem C8_roundtrip_colon_free : ∀ X Y : String,
    hasColon X = false → hasColon Y = false →
    resolve_provider_model (some Y) (some X) =
      resolve_provider_model (some (X ++ ":" ++ Y)) none := by
  intro X Y hx hy
  have h1 : parse_model_string (some Y) (some X) = (some Y, some X) :=
    parse_of_no_colon Y hy (some X)
  have h2 : parse_model_string (some (X ++ ":" ++ Y)) none = (some Y, some X) := by
    rw [parse_of_split X Y hx none]
    simp [strTruthy]
  simp only [resolve_provider_model, h1, h2]

/-- Claim C8, witness: the round trip at `X="openai"`, `Y="gpt-4o"`. -/
theorem C8_witness :
    resolve_provider_model (some "gpt-4o") (some "openai") =
      resolve_provider_model (some ("openai" ++ ":" ++ "gpt-4o")) none :=
  C8_roundtrip_colon_free "openai" "gpt-4o" (by rfl) (by rfl)

/-! ## Claim C9 -/

/-- Claim C9 (confirmed): `get_supported_providers` returns a freshly
allocated dict whose content equals `SUPPORTED_PROVIDERS`, and inserting
or deleting a top-level entry in the returned dict leaves the registry's
content unchanged. -/
theorem C9_registry_copy_isolated (h : DictHeap)
    (hreg : heapGet h registryAddr = some SUPPORTED_PROVIDERS)
    (k : String) (v : ProviderInfo) :
    heapGet (get_supported_providers h).1 (get_supported_providers h).2 =
      some SUPPORTED_PROVIDERS ∧
    heapGet (dictInsertAt (get_supported_providers h).1
      (get_supported_providers h).2 k v) registryAddr =
      some SUPPORTED_PROVIDERS ∧
    heapGet (dictDeleteAt (get_supported_providers h).1
      (get_supported_providers h).2 k) registryAddr =
      some SUPPORTED_PROVIDERS := by
  have hb : registryAddr ≠ freshAddr h := by
    simp only [registryAddr, freshAddr]
    omega
  have hbb : (registryAddr == freshAddr h) = false := by
    simpa using hb
  have hreg1 : List.lookup registryAddr h = some SUPPORTED_PROVIDERS := hreg
  refine ⟨?_, ?_, ?_⟩
  · simp [get_supported_providers, heapGet, heapSet, hreg1, List.lookup]
  · simp [get_supported_providers, dictInsertAt, heapGet, heapSet, hreg1,
          List.lookup, hbb]
  · simp [get_supported_providers, dictDeleteAt, heapGet, heapSet, hreg1,
          List.lookup, hbb]

/-- Claim C9, witness: on the one-dict heap holding the registry at its
address, inserting or deleting `"newprov"` in the returned copy leaves
the registry content intact. -/
theorem C9_witness :
    heapGet (get_supported_providers [(registryAddr, SUPPORTED_PROVIDERS)]).1
      (get_supported_providers [(registryAddr, SUPPORTED_PROVIDERS)]).2 =
      some SUPPORTED_PROVIDERS ∧
    heapGet (dictInsertAt
      (get_supported_providers [(registryAddr, SUPPORTED_PROVIDERS)]).1
      (get_supported_providers [(registryAddr, SUPPORTED_PROVIDERS)]).2
      "newprov"
      { env_var := none, default_model := "m", package := "p", examples := [] })
      registryAddr = some SUPPORTED_PROVIDERS ∧
    heapGet (dictDeleteAt
      (get_supported_providers [(registryAddr, SUPPORTED_PROVIDERS)]).1
      (get_supported_providers [(registryAddr, SUPPORTED_PROVIDERS)]).2
      "newprov") registryAddr = some SUPPORTED_PROVIDERS :=
  C9_registry_copy_isolated [(registryAddr, SUPPORTED_PROVIDERS)] (by rfl)
    "newprov" { env_var := none, default_model := "m", package := "p", examples := [] }

/-! ## Claim C10 -/

/-- Claim C10 (confirmed): for every provider in the registry, an
empty-string model argument resolves exactly like an absent model — to
that provider together with its registry default model. -/
theorem C10_empty_model_like_absent :
    ∀ (p : String) (info : ProviderInfo), lookupProvider p = some info →
    resolve_provider_model (some "") (some p) =
      resolve_provider_model none (some p) ∧
    resolve_provider_model none (some p) = .ok (p, info.default_model) := by
  intro p info hl
  have hp : p ≠ "" := by
    intro h
    subst h
    rw [show lookupProvider "" = none from rfl] at hl
    cases hl
  have ht : strTruthy (some p) = true := by simp [strTruthy, hp]
  have hparse1 : parse_model_string (some "") (some p) = (some "", some p) := by
    simp [parse_model_string, strTruthy]
  have hparse2 : parse_model_string none (some p) = (none, some p) := by
    simp [parse_model_string, strTruthy]
  constructor <;>
    simp [resolve_provider_model, hparse1, hparse2, ht, hl, strTruthy, hp]

/-- Claim C10, witness: `model=""` with `provider="openai"` resolves like
`model=None` — to `(openai, gpt-4o)`. -/
theorem C10_witness :
    resolve_provider_model (some "") (some "openai") =
      resolve_provider_model none (some "openai") ∧
    resolve_provider_model none (some "openai") = .ok ("openai", "gpt-4o") :=
  C10_empty_model_like_absent "openai"
    { env_var := some "OPENAI_API_KEY", default_model := "gpt-4o",
      package := "langchain-openai",
      examples := ["gpt-4o", "gpt-4-turbo", "gpt-3.5-turbo", "o1", "o3-mini"] }
    (by rfl)
